import Mathlib

/-!
Shallow embedding of the resilient external-data proxy and cache core of
`monitor-the-situation` (api/cam-snapshot.js, api/mdt.js, api/camnames.js,
cli/mts-cli.js).  Byte buffers are modelled as `List Nat`, timestamps as
`Nat` milliseconds, and the network as an explicit oracle function
`String → Option RawResp` (`none` = connection error / timeout).
-/

namespace MTS

/-! ## URL parsing and the SSRF guard (api/cam-snapshot.js `isSafeUrl`) -/

/-- The two parts of a parsed URL that the code consumes from
`new URL(raw)`: `protocol` (with trailing colon) and `hostname`
(lowercased, userinfo and port stripped).  Simplified WHATWG parsing:
only `scheme://…` forms are accepted. -/
structure UrlParts where
  protocol : String
  hostname : String
deriving DecidableEq, Repr

/-- Split `scheme://rest` at the first colon, demanding the `//`. -/
def splitScheme : List Char → Option (List Char × List Char)
  | [] => none
  | c :: cs =>
    if c = ':' then
      match cs with
      | '/' :: '/' :: rest => some ([], rest)
      | _ => none
    else
      match splitScheme cs with
      | none => none
      | some (sch, rest) => some (c :: sch, rest)

/-- Chars after the last `@` (drops any userinfo from the authority). -/
def afterLastAt (l : List Char) : List Char :=
  l.foldl (fun acc c => if c = '@' then [] else acc ++ [c]) []

def parseUrl (raw : String) : Option UrlParts :=
  match splitScheme raw.data with
  | none => none
  | some (sch, rest) =>
    match sch with
    | [] => none
    | c :: _ =>
      if !c.isAlpha ||
          !(sch.all fun d => d.isAlpha || d.isDigit || d == '+' || d == '-' || d == '.') then
        none
      else
        let hostport := rest.takeWhile fun d => !(d == '/' || d == '?' || d == '#')
        let auth := afterLastAt hostport
        let host := auth.takeWhile fun d => !(d == ':')
        if host.isEmpty then none
        else some ⟨String.mk (sch.map Char.toLower) ++ ":", String.mk (host.map Char.toLower)⟩

/-- Boolean prefix test on char lists. -/
def listPre : List Char → List Char → Bool
  | [], _ => true
  | _ :: _, [] => false
  | p :: ps, h :: hs => (p == h) && listPre ps hs

/-- Expansion of the alternative `172\.(1[6-9]|2\d|3[01])\.` of the
`BLOCKED` regex. -/
def blocked172 : List String :=
  ["172.16.", "172.17.", "172.18.", "172.19.", "172.20.", "172.21.",
   "172.22.", "172.23.", "172.24.", "172.25.", "172.26.", "172.27.",
   "172.28.", "172.29.", "172.30.", "172.31."]

/-- The `BLOCKED` hostname regex of api/cam-snapshot.js:
`^(localhost|127\.|10\.|192\.168\.|172\.(1[6-9]|2\d|3[01])\.|0\.0\.0\.0|::1|169\.254\.)/i`.
The host passed in is already lowercased by `parseUrl` (the regex has the
`i` flag). -/
def blockedHost (host : List Char) : Bool :=
  listPre "localhost".data host || listPre "127.".data host ||
  listPre "10.".data host || listPre "192.168.".data host ||
  listPre "0.0.0.0".data host || listPre "::1".data host ||
  listPre "169.254.".data host ||
  blocked172.any fun p => listPre p.data host

/-- `isSafeUrl` of api/cam-snapshot.js: an unparsable URL is unsafe,
otherwise the scheme must be `https:` and the hostname must not match
`BLOCKED`. -/
def isSafeUrl (raw : String) : Bool :=
  match parseUrl raw with
  | none => false
  | some u => u.protocol == "https:" && !blockedHost u.hostname.data

/-! ## The redirect-following image fetcher (api/cam-snapshot.js
`fetchImageBuffer`) -/

/-- A raw HTTP response as api/cam-snapshot.js reads it: the status code,
the `Location` header, the body bytes and the `Content-Type` header. -/
structure RawResp where
  statusCode : Nat
  redirLoc : Option String
  body : List Nat
  contentType : Option String
deriving DecidableEq, Repr

/-- The network oracle: `none` models a connection error or timeout. -/
abbrev Net := String → Option RawResp

inductive FetchErr where
  | invalidUrl (u : String)
  | networkErr
  | tooManyRedirects
  | malformedRedirect
  | httpStatus (n : Nat)
deriving DecidableEq, Repr

deriving instance DecidableEq for Except

/-- Result of a fetch together with the list of URLs the fetcher actually
dereferenced (issued a request to), in order. -/
structure FetchOut where
  result : Except FetchErr (List Nat × String)
  trace : List String
deriving DecidableEq, Repr

def MAX_REDIRECTS : Nat := 5
def CACHE_TTL : Nat := 12 * 60 * 60 * 1000

/-- `fetchImageBuffer(url, redirectsLeft)`.  `rel` models the library call
`new URL(loc, url).href` used to resolve a relative `Location` header.
The order of checks mirrors the source: URL validity, then connection,
then the redirect branch (depth check before the `Location` check), then
the non-200 check, then success. -/
def fetchImageBufferAux (net : Net) (rel : String → String → String) :
    Nat → String → FetchOut
  | redirectsLeft, url =>
    match parseUrl url with
    | none => ⟨.error (.invalidUrl url), []⟩
    | some _ =>
      match net url with
      | none => ⟨.error .networkErr, [url]⟩
      | some r =>
        if [301, 302, 307, 308].contains r.statusCode then
          match redirectsLeft with
          | 0 => ⟨.error .tooManyRedirects, [url]⟩
          | n + 1 =>
            match r.redirLoc with
            | none => ⟨.error .malformedRedirect, [url]⟩
            | some loc =>
              let next := if listPre "http".data loc.data then loc else rel loc url
              let out := fetchImageBufferAux net rel n next
              ⟨out.result, url :: out.trace⟩
        else if r.statusCode ≠ 200 then ⟨.error (.httpStatus r.statusCode), [url]⟩
        else ⟨.ok (r.body, r.contentType.getD "image/jpeg"), [url]⟩

/-- Top-level entry: `fetchImageBuffer(url)` starts with
`redirectsLeft = MAX_REDIRECTS`. -/
def fetchImageBuffer (net : Net) (rel : String → String → String) (url : String) : FetchOut :=
  fetchImageBufferAux net rel MAX_REDIRECTS url

def redirResp (loc : String) : RawResp := ⟨302, some loc, [], none⟩

def okResp (body : List Nat) : RawResp := ⟨200, none, body, none⟩

/-- A network with 5 redirect hops then a 200 carrying `body`. -/
def chain5Net (body : List Nat) : Net := fun u =>
  if u = "https://cam.example/r0" then some (redirResp "https://cam.example/r1")
  else if u = "https://cam.example/r1" then some (redirResp "https://cam.example/r2")
  else if u = "https://cam.example/r2" then some (redirResp "https://cam.example/r3")
  else if u = "https://cam.example/r3" then some (redirResp "https://cam.example/r4")
  else if u = "https://cam.example/r4" then some (redirResp "https://cam.example/r5")
  else if u = "https://cam.example/r5" then some (okResp body)
  else none

/-- A network whose first 6 responses are all redirects. -/
def chain6Net : Net := fun u =>
  if u = "https://cam.example/r0" then some (redirResp "https://cam.example/r1")
  else if u = "https://cam.example/r1" then some (redirResp "https://cam.example/r2")
  else if u = "https://cam.example/r2" then some (redirResp "https://cam.example/r3")
  else if u = "https://cam.example/r3" then some (redirResp "https://cam.example/r4")
  else if u = "https://cam.example/r4" then some (redirResp "https://cam.example/r5")
  else if u = "https://cam.example/r5" then some (redirResp "https://cam.example/r6")
  else if u = "https://cam.example/r6" then some (okResp [1])
  else none

/-- A network whose first response is a redirect with no `Location`. -/
def noLocNet : Net := fun u =>
  if u = "https://cam.example/r0" then some ⟨302, none, [], none⟩
  else none

/-! ## Placeholder PNG (api/cam-snapshot.js `makePlaceholderPng`) -/

/-- One step of the bitwise CRC-32 inner loop:
`c = (c >>> 1) ^ (c & 1 ? 0xEDB88320 : 0)`. -/
def crc32Round (c : Nat) : Nat :=
  Nat.xor (c >>> 1) (if c % 2 = 1 then 0xEDB88320 else 0)

/-- Fold one byte into the CRC accumulator (`c ^= b` then 8 rounds). -/
def crc32Byte (c b : Nat) : Nat := crc32Round^[8] (Nat.xor c b)

/-- `crc32buf(data)`: final xor with `0xFFFFFFFF`, emitted big-endian. -/
def crc32buf (data : List Nat) : List Nat :=
  let c := data.foldl crc32Byte 0xFFFFFFFF
  let n := Nat.xor c 0xFFFFFFFF
  [n >>> 24, (n >>> 16) % 256, (n >>> 8) % 256, n % 256]

/-- A 32-bit big-endian length field (`Buffer.writeUInt32BE`). -/
def be32 (n : Nat) : List Nat :=
  [(n >>> 24) % 256, (n >>> 16) % 256, (n >>> 8) % 256, n % 256]

/-- `pngChunk(type, data)`: length, ascii type tag, data, CRC of tag+data. -/
def pngChunk (ty : String) (data : List Nat) : List Nat :=
  let t := ty.data.map Char.toNat
  be32 data.length ++ t ++ data ++ crc32buf (t ++ data)

/-- The 13-byte IHDR payload: width 16, height 9, bit depth 8,
grayscale color type 0, compression/filter/interlace 0. -/
def ihdrData : List Nat := be32 16 ++ be32 9 ++ [8, 0, 0, 0, 0]

def pngSignature : List Nat := [0x89, 0x50, 0x4E, 0x47, 0x0D, 0x0A, 0x1A, 0x0A]

/-- The raw scanline buffer handed to `zlib.deflateSync`: 9 rows of one
filter byte 0 followed by 16 gray (50) pixels. -/
def placeholderRaw : List Nat :=
  (List.range 9).flatMap fun _ => 0 :: List.replicate 16 50

/-- `makePlaceholderPng()`.  `deflated` stands for
`zlib.deflateSync(placeholderRaw)` — zlib is an external library call, so
its output is a parameter; every property proved below holds for any
deflate output. -/
def makePlaceholderPng (deflated : List Nat) : List Nat :=
  pngSignature ++ pngChunk "IHDR" ihdrData ++ pngChunk "IDAT" deflated ++
    pngChunk "IEND" []

/-! ## The snapshot request handler (api/cam-snapshot.js `handler`) -/

def strBytes (s : String) : List Nat := s.data.map Char.toNat

/-- `imageCache` entry: `{ buf, contentType, fetchedAt }`. -/
structure ImgEntry where
  buf : List Nat
  contentType : String
  fetchedAt : Nat
deriving DecidableEq, Repr

/-- `lastGoodCache` entry: `{ buf, contentType }`. -/
structure GoodEntry where
  buf : List Nat
  contentType : String
deriving DecidableEq, Repr

/-- The module-level maps of api/cam-snapshot.js.  `Map.set` is modelled
by consing (List.lookup returns the most recent binding). -/
structure SnapState where
  imageCache : List (String × ImgEntry)
  lastGoodCache : List (String × GoodEntry)
deriving DecidableEq, Repr

def emptySnapState : SnapState := ⟨[], []⟩

structure SnapResp where
  status : Nat
  contentType : Option String
  xSnapshot : Option String
  body : List Nat
deriving DecidableEq, Repr

/-- JS truthiness of a possibly-absent query-string value
(`undefined` and the empty string are falsy). -/
def qTruthy : Option String → Bool
  | none => false
  | some s => !s.isEmpty

/-- The `/^\d+$/` test on the `id` parameter. -/
def allDigits (s : String) : Bool := !s.isEmpty && s.data.all Char.isDigit

/-- `const key = id ? mdt:id : url:url`. -/
def snapKey (idq urlq : Option String) : String :=
  if qTruthy idq then "mdt:" ++ idq.getD "" else "url:" ++ urlq.getD ""

/-- `const imageUrl = id ? await resolveMdtUrl(id) : url`.  `resolveOut`
is the outcome of the awaited `resolveMdtUrl(id)` call. -/
def attemptUrl (resolveOut : Except String String) (idq urlq : Option String) :
    Except String String :=
  if qTruthy idq then resolveOut else .ok (urlq.getD "")

/-- The body of the handler's `try` block up to the fetch: resolve the
image URL, then fetch it.  Returns the fetched payload (or `none` if the
`catch` was entered) together with the fetcher's dereference trace. -/
def snapAttempt (resolveOut : Except String String) (net : Net)
    (rel : String → String → String) (idq urlq : Option String) :
    Option (List Nat × String) × List String :=
  match attemptUrl resolveOut idq urlq with
  | .error _ => (none, [])
  | .ok u =>
    let fo := fetchImageBuffer net rel u
    match fo.result with
    | .ok bc => (some bc, fo.trace)
    | .error _ => (none, fo.trace)

/-- Whether the in-memory cache entry for `key` is fresh at `now`. -/
def snapFresh (st : SnapState) (now : Nat) (key : String) : Bool :=
  match List.lookup key st.imageCache with
  | some c => decide (now - c.fetchedAt < CACHE_TTL)
  | none => false

/-- The `catch` branch: last known-good snapshot, else the placeholder. -/
def snapFallback (st : SnapState) (key : String) (deflated : List Nat)
    (trace : List String) : SnapResp × SnapState × List String :=
  match List.lookup key st.lastGoodCache with
  | some lg => (⟨200, some lg.contentType, some "STALE", lg.buf⟩, st, trace)
  | none =>
    (⟨200, some "image/png", some "PLACEHOLDER", makePlaceholderPng deflated⟩,
     st, trace)

/-- The `try`/`catch` of the handler: on success write both caches and
answer `MISS`; on any resolution/fetch failure fall back. -/
def snapTryFetch (resolveOut : Except String String) (net : Net)
    (rel : String → String → String) (deflated : List Nat)
    (st : SnapState) (now : Nat) (key : String) (idq urlq : Option String) :
    SnapResp × SnapState × List String :=
  match snapAttempt resolveOut net rel idq urlq with
  | (some (buf, ct), tr) =>
    (⟨200, some ct, some "MISS", buf⟩,
     ⟨(key, ⟨buf, ct, now⟩) :: st.imageCache,
      (key, ⟨buf, ct⟩) :: st.lastGoodCache⟩, tr)
  | (none, tr) => snapFallback st key deflated tr

/-- `handler(req, res)` of api/cam-snapshot.js for a GET request, as a
function of the query parameters, the module state, the clock and the
outcomes of the external calls.  The third component of the result is
the list of URLs the image fetcher dereferenced. -/
def camSnapshotHandler (resolveOut : Except String String) (net : Net)
    (rel : String → String → String) (deflated : List Nat)
    (st : SnapState) (now : Nat) (idq urlq : Option String) :
    SnapResp × SnapState × List String :=
  if !qTruthy idq && !qTruthy urlq then
    (⟨400, none, none, strBytes "Missing id or url parameter"⟩, st, [])
  else if qTruthy idq && !allDigits (idq.getD "") then
    (⟨400, none, none, strBytes "Invalid id"⟩, st, [])
  else if qTruthy urlq && !isSafeUrl (urlq.getD "") then
    (⟨400, none, none, strBytes "Invalid or disallowed URL"⟩, st, [])
  else
    let key := snapKey idq urlq
    match List.lookup key st.imageCache with
    | some c =>
      if now - c.fetchedAt < CACHE_TTL then
        (⟨200, some c.contentType, some "HIT", c.buf⟩, st, [])
      else snapTryFetch resolveOut net rel deflated st now key idq urlq
    | none => snapTryFetch resolveOut net rel deflated st now key idq urlq

/-- A request is well-formed when it survives the three 400 checks:
some parameter present, a present id all digits, a present url safe. -/
def snapWellFormed (idq urlq : Option String) : Bool :=
  (qTruthy idq || qTruthy urlq) &&
  (!qTruthy idq || allDigits (idq.getD "")) &&
  (!qTruthy urlq || isSafeUrl (urlq.getD ""))

/-- A network whose only response is a 200 with an empty body. -/
def emptyOkNet : Net := fun u =>
  if u = "https://img.example/a" then some (okResp []) else none

/-- A network where a guard-accepted URL 302-redirects onto a loopback
http address, which then answers 200. -/
def unsafeRedirNet : Net := fun u =>
  if u = "https://img.example/a" then some (redirResp "http://127.0.0.1/x")
  else if u = "http://127.0.0.1/x" then some (okResp [7])
  else none

/-! ## The Montana manifest handler (api/mdt.js, a tiered resource cache) -/

/-- `cache['rwis']` entry: `{ buf, at }` (`at` is a Lean keyword, so the
field is named `atMs`). -/
structure MdtEntry where
  buf : String
  atMs : Nat
deriving DecidableEq, Repr

/-- A response body: either a served payload or the JSON object written
by `res.end(JSON.stringify({...}))`, kept structured so field presence
can be stated. -/
inductive RespBody where
  | payload (s : String)
  | errJson (fields : List (String × String))
deriving DecidableEq, Repr

structure MdtResp where
  status : Nat
  xCache : Option String
  body : RespBody
deriving DecidableEq, Repr

def MDT_CACHE_TTL : Nat := 10 * 60 * 1000
def MDT_CACHE_STALE : Nat := 60 * 60 * 1000

/-- The `catch` branch of api/mdt.js: serve the stale cache if it is
within the stale window, else a 502 with `{ error }`. -/
def mdtFail (hit : Option MdtEntry) (now : Nat) (msg : String) :
    MdtResp × Option MdtEntry × Bool :=
  match hit with
  | some h =>
    if now - h.atMs < MDT_CACHE_STALE then
      (⟨200, some "STALE", .payload h.buf⟩, hit, true)
    else (⟨502, none, .errJson [("error", msg)]⟩, hit, true)
  | none => (⟨502, none, .errJson [("error", msg)]⟩, hit, true)

/-- The `try` block of api/mdt.js: fetch the XML, require HTTP 200,
parse, require a non-empty camera list, serve and cache the JSON.
`parse` stands for `parseMarkers` and `stringify` for `JSON.stringify`;
both are taken as parameters (the theorems below hold for every parser
and serializer), keeping the cache logic — which the claims are about —
exactly as in the source. -/
def mdtFetchPath {α : Type} (parse : String → List α) (stringify : List α → String)
    (hit : Option MdtEntry) (now : Nat) (fetched : Except String (Nat × String)) :
    MdtResp × Option MdtEntry × Bool :=
  match fetched with
  | .error e => mdtFail hit now e
  | .ok (status, buf) =>
    if status ≠ 200 then mdtFail hit now ("MDT XML returned HTTP " ++ toString status)
    else
      let cameras := parse buf
      if cameras.isEmpty then mdtFail hit now "No Montana cameras parsed from XML"
      else
        let jsonBuf := stringify cameras
        (⟨200, some "MISS", .payload jsonBuf⟩, some ⟨jsonBuf, now⟩, true)

/-- The api/mdt.js GET handler: response, new cache state, and whether an
upstream fetch was attempted. -/
def mdtHandler {α : Type} (parse : String → List α) (stringify : List α → String)
    (hit : Option MdtEntry) (now : Nat) (fetched : Except String (Nat × String)) :
    MdtResp × Option MdtEntry × Bool :=
  match hit with
  | some h =>
    if now - h.atMs < MDT_CACHE_TTL then (⟨200, some "HIT", .payload h.buf⟩, hit, false)
    else mdtFetchPath parse stringify hit now fetched
  | none => mdtFetchPath parse stringify hit now fetched

/-- Whether a cache entry exists and is still within the stale window. -/
def mdtUsableCache (hit : Option MdtEntry) (now : Nat) : Bool :=
  match hit with
  | some h => decide (now - h.atMs < MDT_CACHE_STALE)
  | none => false

/-! ## JSON values (the duck-typed payloads api/camnames.js absorbs) -/

/-- JSON values.  Numbers are modelled as integers: every id/flag the
aggregated endpoints carry is integral, and no claim depends on float
formatting. -/
inductive JVal where
  | jnull
  | jbool (b : Bool)
  | jnum (n : Int)
  | jstr (s : String)
  | jarr (elems : List JVal)
  | jobj (fields : List (String × JVal))
deriving Repr

/-- Property access `v.k`: `null` models JS `undefined` for a missing
field or a non-object receiver. -/
def jGet : JVal → String → JVal
  | .jobj fields, k => (fields.lookup k).getD .jnull
  | _, _ => .jnull

/-- JS truthiness (empty arrays and objects are truthy). -/
def jTruthy : JVal → Bool
  | .jnull => false
  | .jbool b => b
  | .jnum n => n ≠ 0
  | .jstr s => !s.isEmpty
  | .jarr _ => true
  | .jobj _ => true

/-- JS `a || b`. -/
def jOr (a b : JVal) : JVal := if jTruthy a then a else b

/-- JS `a && b`. -/
def jAnd (a b : JVal) : JVal := if jTruthy a then b else a

mutual
/-- JS `String(v)` for the value shapes in play: arrays join their
elements with commas (a `null` element renders empty, as
`Array.prototype.toString` does, while `String(null)` is `"null"`),
objects render as `[object Object]`. -/
def jToString : JVal → String
  | .jnull => "null"
  | .jbool b => if b then "true" else "false"
  | .jnum n => toString n
  | .jstr s => s
  | .jarr xs => jArrToString xs
  | .jobj _ => "[object Object]"

/-- The comma join of `Array.prototype.toString`. -/
def jArrToString : List JVal → String
  | [] => ""
  | [x] => jElemToString x
  | x :: xs => jElemToString x ++ "," ++ jArrToString xs
termination_by structural l => l

/-- One array element as `join` renders it: `null` becomes empty, any
other value stringifies as `String(v)`. -/
def jElemToString : JVal → String
  | .jnull => ""
  | .jbool b => if b then "true" else "false"
  | .jnum n => toString n
  | .jstr s => s
  | .jarr xs => jArrToString xs
  | .jobj _ => "[object Object]"
termination_by structural v => v
end

/-- JS `.length` (arrays and strings only; `none` models `undefined`). -/
def jLen : JVal → Option Nat
  | .jarr xs => some xs.length
  | .jstr s => some s.length
  | _ => none

/-- JS `v[0]`. -/
def jIdx0 : JVal → JVal
  | .jarr (x :: _) => x
  | .jstr s =>
    match s.data with
    | c :: _ => .jstr (String.mk [c])
    | [] => .jnull
  | _ => .jnull

/-! ## The fan-out name aggregator (api/camnames.js) -/

/-- A merged record `{ location, roadway }` (values kept as the JSON
values the source stores without conversion). -/
structure NameRec where
  loc : JVal
  roadway : JVal
deriving Repr

/-- The `merged` object, as an association list; a key is written at most
once (`!merged[id]` guard), so insertion order does not affect lookup. -/
abbrev NameMap := List (String × NameRec)

def nmLookup (m : NameMap) (id : String) : Option NameRec := List.lookup id m

/-- `String(c.id || c.cameraId || c.itemId || '')`. -/
def itemIdOf (c : JVal) : String :=
  jToString (jOr (jGet c "id") (jOr (jGet c "cameraId") (jOr (jGet c "itemId") (.jstr ""))))

/-- `c.location || c.name || c.description || c.title || ''`. -/
def itemLocOf (c : JVal) : JVal :=
  jOr (jGet c "location")
    (jOr (jGet c "name") (jOr (jGet c "description") (jOr (jGet c "title") (.jstr ""))))

/-- `c.roadway || c.road || ''`. -/
def itemRoadOf (c : JVal) : JVal :=
  jOr (jGet c "roadway") (jOr (jGet c "road") (.jstr ""))

/-- The write guard `if (id && loc && !merged[id])`. -/
def itemWrite (m : NameMap) (c : JVal) : Bool :=
  !(itemIdOf c).isEmpty && jTruthy (itemLocOf c) && (nmLookup m (itemIdOf c)).isNone

/-- The body of `absorb`'s `items.forEach(c => …)`: write only when the
id stringifies non-empty, the location is truthy and the id is unseen. -/
def absorbItem (m : NameMap) (c : JVal) : NameMap :=
  if itemWrite m c then (itemIdOf c, ⟨itemLocOf c, itemRoadOf c⟩) :: m
  else m

/-- `Array.isArray(json) ? json : (json.data || json.cameras || [])`,
flattened to the element list (`[]` when the result is not an array,
matching the `if (!Array.isArray(items)) return` guard). -/
def plainItems (json : JVal) : List JVal :=
  let items := match json with
    | .jarr _ => json
    | _ => jOr (jGet json "data") (jOr (jGet json "cameras") (.jarr []))
  match items with
  | .jarr xs => xs
  | _ => []

/-- `absorb(json)` against the current merged map. -/
def absorb (json : JVal) (m : NameMap) : NameMap :=
  (plainItems json).foldl absorbItem m

/-- `String(item.itemId || '')` of the mapIcons branch. -/
def iconIdOf (item : JVal) : String :=
  jToString (jOr (jGet item "itemId") (.jstr ""))

/-- `item.title || item.name || item.description || ''`. -/
def iconLocOf (item : JVal) : JVal :=
  jOr (jGet item "title") (jOr (jGet item "name") (jOr (jGet item "description") (.jstr "")))

/-- The mapIcons write guard `if (id && loc && !merged[id])`. -/
def iconWrite (m : NameMap) (item : JVal) : Bool :=
  !(iconIdOf item).isEmpty && jTruthy (iconLocOf item) &&
    (nmLookup m (iconIdOf item)).isNone

def absorbIconsItem (m : NameMap) (item : JVal) : NameMap :=
  if iconWrite m item then (iconIdOf item, ⟨iconLocOf item, .jstr ""⟩) :: m
  else m

/-- `(data.item2 || [])` of the mapIcons branch; a truthy non-array
`item2` makes `forEach` throw before any write, and the branch's
`.catch(() => {})` then discards the branch. -/
def iconsItems (data : JVal) : List JVal :=
  match jOr (jGet data "item2") (.jarr []) with
  | .jarr xs => xs
  | _ => []

def absorbIcons (data : JVal) (m : NameMap) : NameMap :=
  (iconsItems data).foldl absorbIconsItem m

/-- One completed fan-out branch: the 23 list/alternate endpoints run
`absorb`, the mapIcons endpoint runs its inline absorber. -/
inductive Branch where
  | plain (json : JVal)
  | icons (json : JVal)
deriving Repr

def absorbBranch (m : NameMap) (b : Branch) : NameMap :=
  match b with
  | .plain j => absorb j m
  | .icons j => absorbIcons j m

/-- `buildNameMap()`: each branch's `.then(absorb)` callback mutates the
shared `merged` object when that fetch completes, so the merged map is
the fold of the absorbers over the branches in completion order
(branches that reject are swallowed by `.catch` and are simply absent
from the list). -/
def buildNameMap (completed : List Branch) : NameMap :=
  completed.foldl absorbBranch []

/-- The ids a branch could write (the stringified id of each of its
items). -/
def branchIds : Branch → List String
  | .plain j => (plainItems j).map itemIdOf
  | .icons j => (iconsItems j).map iconIdOf

/-- Id-disjointness of two branches (bounded, hence decidable). -/
abbrev BranchDisjoint (b1 b2 : Branch) : Prop :=
  ∀ id ∈ branchIds b1, id ∉ branchIds b2

/-- A first-priority source (a numbered `GetUserCameras` list) and a
lower-priority alternate that disagree on the record for id 1. -/
def srcPriority : Branch :=
  .plain (.jarr [.jobj [("id", .jnum 1), ("location", .jstr "I-15 NB @ 600 S")]])

def srcAlternate : Branch :=
  .plain (.jarr [.jobj [("id", .jnum 1), ("location", .jstr "I-15 North")]])

/-- A source with the disjoint id 2. -/
def srcOther : Branch :=
  .plain (.jarr [.jobj [("id", .jnum 2), ("location", .jstr "US-89 @ MP 12")]])

/-! ## The dynamic MDT URL resolver (api/cam-snapshot.js `resolveMdtUrl`)
and the CLI redirect endpoint (cli/mts-cli.js `serveMdtImage`) -/

/-- `mdtUrlCache` / `_imgUrlCache` entry `{ url, at }`. -/
structure UrlEntry where
  url : String
  atMs : Nat
deriving DecidableEq, Repr

def MDT_URL_TTL : Nat := 60 * 1000
def IMG_CACHE_TTL : Nat := 30 * 1000

/-- `json.data && json.data.lastFivePolledImages`. -/
def mdtImagesOf (json : JVal) : JVal :=
  jAnd (jGet json "data") (jGet (jGet json "data") "lastFivePolledImages")

/-- `!images || !images.length`. -/
def mdtNoImages (images : JVal) : Bool :=
  !jTruthy images ||
    (match jLen images with
     | some n => decide (n = 0)
     | none => true)

/-- The response-processing of `resolveMdtUrl`: reject when the image
list is missing/empty or the first entry lacks `publicSharePath`. -/
def extractShareUrl (json : JVal) : Except String String :=
  let images := mdtImagesOf json
  if mdtNoImages images then .error "No images in MDT response"
  else
    let url := jGet (jIdx0 images) "publicSharePath"
    if !jTruthy url then .error "No publicSharePath in MDT response"
    else .ok (jToString url)

/-- The fetch-and-extract path of `resolveMdtUrl` (`meta` is the outcome
of the metadata HTTP call: `.error` covers connection errors, timeouts
and JSON.parse failures). -/
def resolveMdtFetch (cache : Option UrlEntry) (now : Nat) (meta : Except String JVal) :
    Except String String × Option UrlEntry :=
  match meta with
  | .error e => (.error e, cache)
  | .ok json =>
    match extractShareUrl json with
    | .error e => (.error e, cache)
    | .ok u => (.ok u, some ⟨u, now⟩)

/-- `resolveMdtUrl(positionId)`: serve the cached URL while it is fresh,
otherwise resolve anew; any failure is propagated (the expired cache
entry is never served). -/
def resolveMdtUrl (cache : Option UrlEntry) (now : Nat) (meta : Except String JVal) :
    Except String String × Option UrlEntry :=
  match cache with
  | some c =>
    if now - c.atMs < MDT_URL_TTL then (.ok c.url, cache)
    else resolveMdtFetch cache now meta
  | none => resolveMdtFetch cache now meta

/-- A response of the CLI `serveMdtImage` endpoint. -/
structure SrvResp where
  status : Nat
  redirTo : Option String
  cacheControl : String
  body : List Nat
deriving DecidableEq, Repr

/-- The 1×1 transparent GIF fallback (the decoded base64 constant). -/
def transparentGif : List Nat :=
  [71, 73, 70, 56, 57, 97, 1, 0, 1, 0, 128, 0, 0, 0, 0, 0, 255, 255, 255,
   33, 249, 4, 1, 0, 0, 0, 0, 44, 0, 0, 0, 0, 1, 0, 1, 0, 0, 2, 1, 68, 0, 59]

/-- The CLI's inline extraction: `json.data && json.data.lastFivePolledImages`,
`if (!imgs || !imgs.length) throw 'No images'`, then
`imgs[0].publicSharePath` with no further check. -/
def cliExtract (json : JVal) : Except String String :=
  let imgs := mdtImagesOf json
  if mdtNoImages imgs then .error "No images"
  else .ok (jToString (jGet (jIdx0 imgs) "publicSharePath"))

/-- The non-fresh path of `serveMdtImage`: on success 302 to the new URL
and cache it; on failure 302 to the *stale cached URL* when one exists,
else the transparent GIF with 200. -/
def serveMdtFetch (cached : Option UrlEntry) (now : Nat) (meta : Except String JVal) :
    SrvResp × Option UrlEntry :=
  let failed : SrvResp × Option UrlEntry :=
    match cached with
    | some c => (⟨302, some c.url, "max-age=10", []⟩, cached)
    | none => (⟨200, none, "no-store", transparentGif⟩, cached)
  match meta with
  | .error _ => failed
  | .ok json =>
    match cliExtract json with
    | .error _ => failed
    | .ok u => (⟨302, some u, "max-age=30", []⟩, some ⟨u, now⟩)

/-- `serveMdtImage(positionId, res)` of cli/mts-cli.js. -/
def serveMdtImage (cached : Option UrlEntry) (now : Nat) (meta : Except String JVal) :
    SrvResp × Option UrlEntry :=
  match cached with
  | some c =>
    if now - c.atMs < IMG_CACHE_TTL then (⟨302, some c.url, "max-age=30", []⟩, cached)
    else serveMdtFetch cached now meta
  | none => serveMdtFetch cached now meta

/-! ## Content Classifier (spec-modelled) -/

/-- The code points JS `String.prototype.trimStart` strips
(WhiteSpace and LineTerminator): tab, LF, VT, FF, CR, space, NBSP, Ogham
space, the U+2000 to U+200A range, LS, PS, NNBSP, MMSP, ideographic
space, BOM. -/
def jsWsCodes : List Nat :=
  [0x9, 0xA, 0xB, 0xC, 0xD, 0x20, 0xA0, 0x1680,
   0x2000, 0x2001, 0x2002, 0x2003, 0x2004, 0x2005, 0x2006, 0x2007,
   0x2008, 0x2009, 0x200A, 0x2028, 0x2029, 0x202F, 0x205F, 0x3000, 0xFEFF]

def isJsWs (c : Char) : Bool := jsWsCodes.contains c.toNat

inductive Verdict where
  | valid
  | challengePage
deriving DecidableEq, Repr

/-- Modelled from the spec: the body classifier of the cached `api/udot.js`
proxy is not included under src/ (BUILD-NOTES.md documents its code as
`const text = buf.toString('utf8').trimStart();
if (text.startsWith('{') || text.startsWith('[')) … else …`); modelled
faithfully to that snippet and spec §4.1. -/
def classify (body : String) : Verdict :=
  let text := body.data.dropWhile isJsWs
  if listPre [Char.ofNat 123] text || listPre ['['] text then .valid
  else .challengePage

/-- The first non-whitespace character of a body (the spec's phrasing of
the classifier contract). -/
def firstNonWs (body : String) : Option Char :=
  (body.data.dropWhile isJsWs).head?

/-- A cache entry of the spec-modelled manifest proxy. -/
structure UEntry where
  buf : String
  atMs : Nat
deriving DecidableEq, Repr

structure UResp where
  status : Nat
  xCache : Option String
  body : RespBody
deriving DecidableEq, Repr

def UDOT_FRESH_TTL : Nat := 10 * 60 * 1000
def UDOT_STALE_TTL : Nat := 60 * 60 * 1000

/-- Modelled from the spec: the failure path of the cached `api/udot.js`
proxy (not under src/) — serve the stale entry while within the stale
window, else 503 with `{error, preview}` (spec §4.4 step 3–4, §6). -/
def udotFail (hit : Option UEntry) (now : Nat) (msg preview : String) :
    UResp × Option UEntry :=
  match hit with
  | some h =>
    if now - h.atMs < UDOT_STALE_TTL then (⟨200, some "STALE", .payload h.buf⟩, hit)
    else (⟨503, none, .errJson [("error", msg), ("preview", preview)]⟩, hit)
  | none => (⟨503, none, .errJson [("error", msg), ("preview", preview)]⟩, hit)

/-- Modelled from the spec: the fetch-and-classify path of the cached
`api/udot.js` manifest proxy (not under src/): a `Valid` body is cached
and served, a `ChallengePage` body or a failed fetch degrades to the
stale tier (spec §4.4 steps 2–4, §4.1). -/
def udotFetchPath (hit : Option UEntry) (now : Nat) (fetched : Except String String) :
    UResp × Option UEntry :=
  match fetched with
  | .error e => udotFail hit now e ""
  | .ok body =>
    match classify body with
    | .valid => (⟨200, some "MISS", .payload body⟩, some ⟨body, now⟩)
    | .challengePage =>
      udotFail hit now "Upstream returned a challenge page"
        (String.mk (body.data.take 300))

/-- Modelled from the spec: one request through the cached `api/udot.js`
manifest proxy (not under src/): fresh hit, else fetch and classify
(spec §4.4). -/
def udotCacheStep (hit : Option UEntry) (now : Nat)
    (fetched : Except String String) : UResp × Option UEntry :=
  match hit with
  | some h =>
    if now - h.atMs < UDOT_FRESH_TTL then (⟨200, some "HIT", .payload h.buf⟩, hit)
    else udotFetchPath hit now fetched
  | none => udotFetchPath hit now fetched

/-! ## Theorems -/

/-- `x <|> none = x` for `Option`. -/
theorem orElse_none_right (x : Option α) : (x <|> none) = x := by
  cases x <;> rfl

theorem orElse_assoc (x y z : Option α) : ((x <|> y) <|> z) = (x <|> (y <|> z)) := by
  cases x <;> rfl

/-- C4: through exactly 5 redirects then a 200 the fetch succeeds with
the final bytes (for any payload and any relative-URL resolver); a 6th
redirect fails with `TooManyRedirects`; a redirect without a `Location`
header fails with `MalformedRedirect`. -/
theorem c4_redirect_depth (body : List Nat) (rel : String → String → String) :
    (fetchImageBuffer (chain5Net body) rel "https://cam.example/r0").result
        = .ok (body, "image/jpeg") ∧
    (fetchImageBuffer chain6Net rel "https://cam.example/r0").result
        = .error .tooManyRedirects ∧
    (fetchImageBuffer noLocNet rel "https://cam.example/r0").result
        = .error .malformedRedirect := by
  refine ⟨?_, ?_, ?_⟩ <;> rfl

/-- C2 counterexample: starting from a guard-accepted https URL, a 302
onto `http://127.0.0.1/x` is followed and dereferenced — the SSRF guard
is not re-applied to the redirect target. -/
theorem c2_ssrf_redirect_counterexample :
    isSafeUrl "https://img.example/a" = true ∧
    isSafeUrl "http://127.0.0.1/x" = false ∧
    (fetchImageBuffer unsafeRedirNet (fun l _ => l) "https://img.example/a").trace
        = ["https://img.example/a", "http://127.0.0.1/x"] ∧
    (fetchImageBuffer unsafeRedirNet (fun l _ => l) "https://img.example/a").result
        = .ok ([7], "image/jpeg") := by
  refine ⟨rfl, rfl, rfl, rfl⟩

/-- C2 (amended): the SSRF guard is applied to every externally supplied
URL before any fetch — an unsafe `url` parameter is answered 400 with no
URL dereferenced — but redirect targets are *not* re-checked: an
absolute `Location` of a redirect response is followed unconditionally,
regardless of `isSafeUrl` of the target. -/
theorem c2_ssrf_guard_amended :
    (∀ (resolveOut : Except String String) (net : Net)
        (rel : String → String → String) (deflated : List Nat)
        (st : SnapState) (now : Nat) (idq urlq : Option String),
      qTruthy urlq = true → isSafeUrl (urlq.getD "") = false →
        (camSnapshotHandler resolveOut net rel deflated st now idq urlq).1.status = 400 ∧
        (camSnapshotHandler resolveOut net rel deflated st now idq urlq).2.2 = []) ∧
    (∀ (net : Net) (rel : String → String → String) (n : Nat) (url loc : String)
        (r : RawResp) (p : UrlParts),
      parseUrl url = some p → net url = some r → r.statusCode = 302 →
      r.redirLoc = some loc → listPre "http".data loc.data = true →
        fetchImageBufferAux net rel (n + 1) url =
          ⟨(fetchImageBufferAux net rel n loc).result,
           url :: (fetchImageBufferAux net rel n loc).trace⟩) := by
  constructor
  · intro resolveOut net rel deflated st now idq urlq hurl hunsafe
    unfold camSnapshotHandler
    cases hmiss : (!qTruthy idq && !qTruthy urlq) with
    | true => simp [hurl] at hmiss
    | false =>
      cases hbad : (qTruthy idq && !allDigits (idq.getD "")) with
      | true => simp [hmiss, hbad]
      | false => simp [hmiss, hbad, hurl, hunsafe]
  · intro net rel n url loc r p hp hnet hst hloc hpre
    conv_lhs => rw [fetchImageBufferAux]
    simp [hp, hnet, hst, hloc, hpre]

/-- C1 counterexample: a well-formed request whose upstream answers 200
with a zero-byte body is served as a 200 `MISS` with an *empty* body, so
the pipeline does not return a non-empty body for every well-formed
request. -/
theorem c1_empty_body_counterexample :
    snapWellFormed none (some "https://img.example/a") = true ∧
    (camSnapshotHandler (.error "unused") emptyOkNet (fun l _ => l) [3]
        emptySnapState 0 none (some "https://img.example/a")).1.status = 200 ∧
    (camSnapshotHandler (.error "unused") emptyOkNet (fun l _ => l) [3]
        emptySnapState 0 none (some "https://img.example/a")).1.body = [] := by
  refine ⟨rfl, rfl, rfl⟩

/-- C1 (amended): for every well-formed image request the handler
answers status 200 — never an error status; on any failure of
resolution or fetch it serves the `lastGoodCache` entry for the key
(tagged `STALE`) when one exists and otherwise the placeholder PNG
(tagged `PLACEHOLDER`), which is non-empty for every deflate output; the
body can be empty only when a successful fetch supplied (or had
previously cached) empty payload bytes. -/
theorem c1_image_pipeline_amended (resolveOut : Except String String) (net : Net)
    (rel : String → String → String) (deflated : List Nat)
    (st : SnapState) (now : Nat) (idq urlq : Option String)
    (hwf : snapWellFormed idq urlq = true) :
    (camSnapshotHandler resolveOut net rel deflated st now idq urlq).1.status = 200 ∧
    makePlaceholderPng deflated ≠ [] ∧
    (snapFresh st now (snapKey idq urlq) = false →
     (snapAttempt resolveOut net rel idq urlq).1 = none →
     (match List.lookup (snapKey idq urlq) st.lastGoodCache with
      | some lg =>
        (camSnapshotHandler resolveOut net rel deflated st now idq urlq).1.xSnapshot
            = some "STALE" ∧
        (camSnapshotHandler resolveOut net rel deflated st now idq urlq).1.body = lg.buf
      | none =>
        (camSnapshotHandler resolveOut net rel deflated st now idq urlq).1.xSnapshot
            = some "PLACEHOLDER" ∧
        (camSnapshotHandler resolveOut net rel deflated st now idq urlq).1.body
            = makePlaceholderPng deflated)) := by
  have hcond : (!qTruthy idq && !qTruthy urlq) = false ∧
      (qTruthy idq && !allDigits (idq.getD "")) = false ∧
      (qTruthy urlq && !isSafeUrl (urlq.getD "")) = false := by
    simp only [snapWellFormed, Bool.and_eq_true, Bool.or_eq_true] at hwf
    obtain ⟨⟨h1, h2⟩, h3⟩ := hwf
    refine ⟨?_, ?_, ?_⟩
    · cases h1 with
      | inl h => simp [h]
      | inr h => simp [h]
    · cases h2 with
      | inl h => simp only [Bool.not_eq_true'] at h; simp [h]
      | inr h => simp [h]
    · cases h3 with
      | inl h => simp only [Bool.not_eq_true'] at h; simp [h]
      | inr h => simp [h]
  obtain ⟨hc1, hc2, hc3⟩ := hcond
  refine ⟨?_, ?_, ?_⟩
  · unfold camSnapshotHandler
    rw [hc1, hc2, hc3]
    simp only [Bool.false_eq_true, if_false]
    cases hl : List.lookup (snapKey idq urlq) st.imageCache with
    | some c =>
      simp only []
      by_cases hf : now - c.fetchedAt < CACHE_TTL
      · simp [hf]
      · simp only [hf, if_false]
        unfold snapTryFetch snapFallback
        rcases ha : snapAttempt resolveOut net rel idq urlq with ⟨o, tr⟩
        cases o with
        | some bc => rcases bc with ⟨b, ct⟩; simp
        | none =>
          simp only []
          cases List.lookup (snapKey idq urlq) st.lastGoodCache <;> simp
    | none =>
      simp only []
      unfold snapTryFetch snapFallback
      rcases ha : snapAttempt resolveOut net rel idq urlq with ⟨o, tr⟩
      cases o with
      | some bc => rcases bc with ⟨b, ct⟩; simp
      | none =>
        simp only []
        cases List.lookup (snapKey idq urlq) st.lastGoodCache <;> simp
  · simp [makePlaceholderPng, pngSignature]
  · intro hfresh hatt
    unfold camSnapshotHandler
    rw [hc1, hc2, hc3]
    simp only [Bool.false_eq_true, if_false]
    unfold snapFresh at hfresh
    cases hl : List.lookup (snapKey idq urlq) st.imageCache with
    | some c =>
      rw [hl] at hfresh
      simp only [decide_eq_false_iff_not] at hfresh
      simp only [hfresh, if_false]
      unfold snapTryFetch
      rcases ha : snapAttempt resolveOut net rel idq urlq with ⟨o, tr⟩
      rw [ha] at hatt
      simp only at hatt
      subst hatt
      unfold snapFallback
      cases hg : List.lookup (snapKey idq urlq) st.lastGoodCache <;> simp
    | none =>
      simp only []
      unfold snapTryFetch
      rcases ha : snapAttempt resolveOut net rel idq urlq with ⟨o, tr⟩
      rw [ha] at hatt
      simp only at hatt
      subst hatt
      unfold snapFallback
      cases hg : List.lookup (snapKey idq urlq) st.lastGoodCache <;> simp

/-- Witness for `c1_image_pipeline_amended` at an always-failing fetcher
with no prior last-known-good image. -/
theorem c1_image_pipeline_witness :
    snapWellFormed none (some "https://cam.example/ok") = true ∧
    ((camSnapshotHandler (.error "boom") (fun _ => none) (fun l _ => l) [9]
        emptySnapState 5 none (some "https://cam.example/ok")).1.status = 200 ∧
     makePlaceholderPng [9] ≠ [] ∧
     (snapFresh emptySnapState 5 (snapKey none (some "https://cam.example/ok")) = false →
      (snapAttempt (.error "boom") (fun _ => none) (fun l _ => l) none
          (some "https://cam.example/ok")).1 = none →
      (match List.lookup (snapKey none (some "https://cam.example/ok"))
          emptySnapState.lastGoodCache with
       | some lg =>
         (camSnapshotHandler (.error "boom") (fun _ => none) (fun l _ => l) [9]
             emptySnapState 5 none (some "https://cam.example/ok")).1.xSnapshot
             = some "STALE" ∧
         (camSnapshotHandler (.error "boom") (fun _ => none) (fun l _ => l) [9]
             emptySnapState 5 none (some "https://cam.example/ok")).1.body = lg.buf
       | none =>
         (camSnapshotHandler (.error "boom") (fun _ => none) (fun l _ => l) [9]
             emptySnapState 5 none (some "https://cam.example/ok")).1.xSnapshot
             = some "PLACEHOLDER" ∧
         (camSnapshotHandler (.error "boom") (fun _ => none) (fun l _ => l) [9]
             emptySnapState 5 none (some "https://cam.example/ok")).1.body
             = makePlaceholderPng [9]))) :=
  ⟨rfl, c1_image_pipeline_amended (.error "boom") (fun _ => none) (fun l _ => l) [9]
      emptySnapState 5 none (some "https://cam.example/ok") rfl⟩

/-- Witness for `c2_ssrf_guard_amended`: the 400 path at a concrete
unsafe `url` parameter, and the redirect-following equation at the
concrete hop of `unsafeRedirNet`. -/
theorem c2_ssrf_guard_witness :
    ((camSnapshotHandler (.error "x") (fun _ => none) (fun l _ => l) [1]
        emptySnapState 0 none (some "http://127.0.0.1/x")).1.status = 400 ∧
     (camSnapshotHandler (.error "x") (fun _ => none) (fun l _ => l) [1]
        emptySnapState 0 none (some "http://127.0.0.1/x")).2.2 = []) ∧
    fetchImageBufferAux unsafeRedirNet (fun l _ => l) (4 + 1) "https://img.example/a" =
      ⟨(fetchImageBufferAux unsafeRedirNet (fun l _ => l) 4 "http://127.0.0.1/x").result,
       "https://img.example/a" ::
         (fetchImageBufferAux unsafeRedirNet (fun l _ => l) 4 "http://127.0.0.1/x").trace⟩ :=
  ⟨c2_ssrf_guard_amended.1 (.error "x") (fun _ => none) (fun l _ => l) [1]
      emptySnapState 0 none (some "http://127.0.0.1/x") rfl rfl,
   c2_ssrf_guard_amended.2 unsafeRedirNet (fun l _ => l) 4 "https://img.example/a"
      "http://127.0.0.1/x" (redirResp "http://127.0.0.1/x") ⟨"https:", "img.example"⟩
      rfl rfl rfl rfl rfl⟩

/-- The failure branch of api/mdt.js either serves a within-stale-window
entry tagged STALE, or answers 502 with `{error}`. -/
theorem mdtFail_shape (hit : Option MdtEntry) (now : Nat) (msg : String) :
    (∃ entry, hit = some entry ∧ now - entry.atMs < MDT_CACHE_STALE ∧
      mdtFail hit now msg = (⟨200, some "STALE", .payload entry.buf⟩, hit, true)) ∨
    mdtFail hit now msg = (⟨502, none, .errJson [("error", msg)]⟩, hit, true) := by
  cases hit with
  | none => exact .inr rfl
  | some h =>
    by_cases hlt : now - h.atMs < MDT_CACHE_STALE
    · exact .inl ⟨h, rfl, hlt, by simp [mdtFail, hlt]⟩
    · exact .inr (by simp [mdtFail, hlt])

/-- The fetch path of api/mdt.js either fails (entering `mdtFail` with
some message) or serves and caches a freshly fetched payload. -/
theorem mdtFetchPath_shape {α : Type} (parse : String → List α)
    (stringify : List α → String) (hit : Option MdtEntry) (now : Nat)
    (fetched : Except String (Nat × String)) :
    (∃ m, mdtFetchPath parse stringify hit now fetched = mdtFail hit now m) ∨
    (∃ buf, mdtFetchPath parse stringify hit now fetched
        = (⟨200, some "MISS", .payload buf⟩, some ⟨buf, now⟩, true)) := by
  rcases fetched with e | ⟨st, buf⟩
  · exact .inl ⟨e, rfl⟩
  · by_cases hst : st ≠ 200
    · exact .inl ⟨"MDT XML returned HTTP " ++ toString st, by simp [mdtFetchPath, hst]⟩
    · by_cases hie : (parse buf).isEmpty
      · exact .inl ⟨"No Montana cameras parsed from XML", by simp [mdtFetchPath, hst, hie]⟩
      · exact .inr ⟨stringify (parse buf), by simp [mdtFetchPath, hst, hie]⟩

/-- If the fetch path answers STALE, then a cache entry within the stale
window exists, its bytes are the body served, and the fetch was
attempted. -/
theorem mdtFetchPath_stale_inv {α : Type} (parse : String → List α)
    (stringify : List α → String) (hit : Option MdtEntry) (now : Nat)
    (fetched : Except String (Nat × String))
    (hSt : (mdtFetchPath parse stringify hit now fetched).1.xCache = some "STALE") :
    ∃ entry, hit = some entry ∧ now - entry.atMs < MDT_CACHE_STALE ∧
      (mdtFetchPath parse stringify hit now fetched).1.body = .payload entry.buf ∧
      (mdtFetchPath parse stringify hit now fetched).2.2 = true := by
  rcases mdtFetchPath_shape parse stringify hit now fetched with ⟨m, hm⟩ | ⟨buf, hb⟩
  · rcases mdtFail_shape hit now m with ⟨entry, he, hlt, heq⟩ | heq
    · exact ⟨entry, he, hlt, by rw [hm, heq], by rw [hm, heq]⟩
    · rw [hm, heq] at hSt; simp at hSt
  · rw [hb] at hSt; simp at hSt

/-- C5: for every cache key of the manifest handler, an entry whose age
is at least `CACHE_STALE` is never served (neither as a HIT nor as a
STALE response), and a STALE response occurs only for an entry still
within the stale window, carries exactly that entry's bytes, and only
after a new fetch attempt was made. -/
theorem c5_stale_ttl_guard {α : Type} (parse : String → List α)
    (stringify : List α → String) (hit : Option MdtEntry) (now : Nat)
    (fetched : Except String (Nat × String)) :
    (∀ entry, hit = some entry → MDT_CACHE_STALE ≤ now - entry.atMs →
      (mdtHandler parse stringify hit now fetched).1.xCache ≠ some "HIT" ∧
      (mdtHandler parse stringify hit now fetched).1.xCache ≠ some "STALE") ∧
    ((mdtHandler parse stringify hit now fetched).1.xCache = some "STALE" →
      ∃ entry, hit = some entry ∧ now - entry.atMs < MDT_CACHE_STALE ∧
        (mdtHandler parse stringify hit now fetched).1.body = .payload entry.buf ∧
        (mdtHandler parse stringify hit now fetched).2.2 = true) := by
  have hTTL : MDT_CACHE_TTL = 600000 := rfl
  have hSTL : MDT_CACHE_STALE = 3600000 := rfl
  constructor
  · intro entry hhit hage
    subst hhit
    have hfr : ¬ (now - entry.atMs < MDT_CACHE_TTL) := by omega
    simp only [mdtHandler]
    rw [if_neg hfr]
    rcases mdtFetchPath_shape parse stringify (some entry) now fetched with ⟨m, hm⟩ | ⟨buf, hb⟩
    · rw [hm]
      rcases mdtFail_shape (some entry) now m with ⟨e2, he2, hlt, heq⟩ | heq
      · obtain rfl : entry = e2 := Option.some.inj he2
        omega
      · rw [heq]
        exact ⟨by simp, by simp⟩
    · rw [hb]
      exact ⟨by simp, by simp⟩
  · intro hSt
    cases hit with
    | none =>
      simp only [mdtHandler] at hSt ⊢
      exact mdtFetchPath_stale_inv parse stringify none now fetched hSt
    | some entry =>
      simp only [mdtHandler] at hSt ⊢
      by_cases hfr : now - entry.atMs < MDT_CACHE_TTL
      · rw [if_pos hfr] at hSt
        simp at hSt
      · rw [if_neg hfr] at hSt ⊢
        exact mdtFetchPath_stale_inv parse stringify (some entry) now fetched hSt

/-- Witness for `c5_stale_ttl_guard` with an entry aged exactly the
stale TTL and a failing upstream. -/
theorem c5_stale_ttl_witness :
    (mdtHandler (fun _ : String => ([] : List Unit)) (fun _ => "")
        (some ⟨"old-bytes", 0⟩) 3600000 (.error "down")).1.xCache ≠ some "HIT" ∧
    (mdtHandler (fun _ : String => ([] : List Unit)) (fun _ => "")
        (some ⟨"old-bytes", 0⟩) 3600000 (.error "down")).1.xCache ≠ some "STALE" :=
  (c5_stale_ttl_guard (fun _ : String => ([] : List Unit)) (fun _ => "")
      (some ⟨"old-bytes", 0⟩) 3600000 (.error "down")).1
    ⟨"old-bytes", 0⟩ rfl (by decide)

/-- C6: a fresh cache entry is served as-is, tagged HIT, with no upstream
fetch; and a repeat call within `freshTTL` of a successful first fetch
returns byte-identical data as a HIT with no new outbound call. -/
theorem c6_fresh_cache_hit {α : Type} (parse : String → List α)
    (stringify : List α → String) :
    (∀ (hit : Option MdtEntry) (entry : MdtEntry) (now : Nat)
        (fetched : Except String (Nat × String)),
      hit = some entry → now - entry.atMs < MDT_CACHE_TTL →
        mdtHandler parse stringify hit now fetched
          = (⟨200, some "HIT", .payload entry.buf⟩, hit, false)) ∧
    (∀ (xml : String) (t0 t1 : Nat) (f2 : Except String (Nat × String)),
      parse xml ≠ [] → t1 - t0 < MDT_CACHE_TTL →
        (mdtHandler parse stringify none t0 (.ok (200, xml))).1.xCache = some "MISS" ∧
        (mdtHandler parse stringify
            (mdtHandler parse stringify none t0 (.ok (200, xml))).2.1 t1 f2).1.body
          = (mdtHandler parse stringify none t0 (.ok (200, xml))).1.body ∧
        (mdtHandler parse stringify
            (mdtHandler parse stringify none t0 (.ok (200, xml))).2.1 t1 f2).1.xCache
          = some "HIT" ∧
        (mdtHandler parse stringify
            (mdtHandler parse stringify none t0 (.ok (200, xml))).2.1 t1 f2).2.2
          = false) := by
  constructor
  · intro hit entry now fetched hhit hfr
    subst hhit
    simp only [mdtHandler]
    rw [if_pos hfr]
  · intro xml t0 t1 f2 hne hlt
    rcases hp : parse xml with _ | ⟨a, as⟩
    · exact absurd hp hne
    · have h1 : mdtHandler parse stringify none t0 (.ok (200, xml))
          = (⟨200, some "MISS", .payload (stringify (a :: as))⟩,
             some ⟨stringify (a :: as), t0⟩, true) := by
        simp [mdtHandler, mdtFetchPath, hp]
      rw [h1]
      refine ⟨rfl, ?_, ?_, ?_⟩ <;>
        simp [mdtHandler, hlt]

/-- Witness for `c6_fresh_cache_hit`: both conjuncts at concrete data. -/
theorem c6_fresh_cache_witness :
    mdtHandler (fun _ : String => [()]) (fun _ => "cams") (some ⟨"cams", 10⟩) 20
        (.error "unused")
      = (⟨200, some "HIT", .payload "cams"⟩, some ⟨"cams", 10⟩, false) ∧
    (mdtHandler (fun _ : String => [()]) (fun _ => "cams") none 10
        (.ok (200, "<xml/>"))).1.xCache = some "MISS" :=
  ⟨(c6_fresh_cache_hit (fun _ : String => [()]) (fun _ => "cams")).1
      (some ⟨"cams", 10⟩) ⟨"cams", 10⟩ 20 (.error "unused") rfl (by decide),
   ((c6_fresh_cache_hit (fun _ : String => [()]) (fun _ => "cams")).2
      "<xml/>" 10 15 (.error "unused") (by decide) (by decide)).1⟩

/-- C8 counterexample: with no cache and an unreachable upstream the
manifest handler answers 502 — not 503 — and its JSON error body has an
`error` field but no `preview` field. -/
theorem c8_status_fields_counterexample :
    (mdtHandler (fun _ : String => ([] : List Unit)) (fun _ => "") none 0
        (.error "connect ECONNREFUSED")).1.status = 502 ∧
    (mdtHandler (fun _ : String => ([] : List Unit)) (fun _ => "") none 0
        (.error "connect ECONNREFUSED")).1.status ≠ 503 ∧
    (mdtHandler (fun _ : String => ([] : List Unit)) (fun _ => "") none 0
        (.error "connect ECONNREFUSED")).1.body
      = .errJson [("error", "connect ECONNREFUSED")] ∧
    List.lookup "preview" [("error", "connect ECONNREFUSED")] = none := by
  refine ⟨rfl, by decide, rfl, rfl⟩

/-- C8 (amended): when no usable cache exists (none, or beyond the stale
window) and the upstream is unreachable, answers non-200, or yields a
body from which no cameras parse (the challenge-page case), the manifest
handler responds 502 with a JSON body whose only field is `error`. -/
theorem c8_failure_response_amended {α : Type} (parse : String → List α)
    (stringify : List α → String) (hit : Option MdtEntry) (now : Nat)
    (hcache : mdtUsableCache hit now = false) :
    (∀ msg, (mdtHandler parse stringify hit now (.error msg)).1
        = ⟨502, none, .errJson [("error", msg)]⟩) ∧
    (∀ body, parse body = [] →
      (mdtHandler parse stringify hit now (.ok (200, body))).1
        = ⟨502, none, .errJson [("error", "No Montana cameras parsed from XML")]⟩) ∧
    (∀ st body, st ≠ 200 →
      (mdtHandler parse stringify hit now (.ok (st, body))).1
        = ⟨502, none, .errJson [("error", "MDT XML returned HTTP " ++ toString st)]⟩) := by
  have hTTL : MDT_CACHE_TTL = 600000 := rfl
  have hSTL : MDT_CACHE_STALE = 3600000 := rfl
  have hfail : ∀ msg, mdtFail hit now msg
      = (⟨502, none, .errJson [("error", msg)]⟩, hit, true) := by
    intro msg
    cases hit with
    | none => rfl
    | some h =>
      simp only [mdtUsableCache, decide_eq_false_iff_not] at hcache
      simp [mdtFail, hcache]
  have hfresh : ∀ (fetched : Except String (Nat × String)),
      mdtHandler parse stringify hit now fetched
        = mdtFetchPath parse stringify hit now fetched := by
    intro fetched
    cases hit with
    | none => rfl
    | some h =>
      simp only [mdtUsableCache, decide_eq_false_iff_not] at hcache
      have : ¬ (now - h.atMs < MDT_CACHE_TTL) := by omega
      simp [mdtHandler, this]
  refine ⟨?_, ?_, ?_⟩
  · intro msg
    rw [hfresh, show mdtFetchPath parse stringify hit now (.error msg)
        = mdtFail hit now msg from rfl, hfail]
  · intro body hparse
    rw [hfresh]
    simp [mdtFetchPath, hparse, hfail]
  · intro st body hst
    rw [hfresh]
    simp only [mdtFetchPath]
    rw [if_pos hst, hfail]

/-- Witness for `c8_failure_response_amended` at an expired entry. -/
theorem c8_failure_response_witness :
    (mdtHandler (fun _ : String => ([] : List Unit)) (fun _ => "")
        (some ⟨"stale", 0⟩) 3600000 (.error "socket hang up")).1
      = ⟨502, none, .errJson [("error", "socket hang up")]⟩ :=
  (c8_failure_response_amended (fun _ : String => ([] : List Unit)) (fun _ => "")
      (some ⟨"stale", 0⟩) 3600000 (by decide)).1 "socket hang up"

/-- A one-character prefix test is exactly a `head?` check. -/
theorem listPre_singleton (c : Char) (l : List Char) :
    listPre [c] l = true ↔ l.head? = some c := by
  cases l with
  | nil => simp [listPre]
  | cons h t =>
    simp only [listPre, Bool.and_eq_true, beq_iff_eq, List.head?_cons,
      Option.some.injEq]
    constructor
    · rintro ⟨rfl, _⟩; rfl
    · intro h2; exact ⟨h2.symm, trivial⟩

/-- The spec-modelled failure tier never answers MISS and never touches
the cache. -/
theorem udotFail_not_miss (hit : Option UEntry) (now : Nat) (msg pv : String) :
    (udotFail hit now msg pv).1.xCache ≠ some "MISS" ∧
    (udotFail hit now msg pv).2 = hit := by
  cases hit with
  | none => exact ⟨by simp [udotFail], rfl⟩
  | some h => by_cases hlt : now - h.atMs < UDOT_STALE_TTL <;> simp [udotFail, hlt]

/-- C3: the classifier answers `Valid` exactly when the first
non-whitespace character of the body is a left brace or a left bracket,
and any other body is `ChallengePage`; moreover a `ChallengePage` body
is treated as a fetch failure: the cache step never serves it as a fresh
`MISS` payload and never writes it into the cache. -/
theorem c3_classifier_contract :
    (∀ body : String, classify body = .valid ↔
      (firstNonWs body = some (Char.ofNat 123) ∨ firstNonWs body = some '[')) ∧
    (∀ (hit : Option UEntry) (now : Nat) (body : String),
      classify body = .challengePage →
        (udotCacheStep hit now (.ok body)).1.xCache ≠ some "MISS" ∧
        (udotCacheStep hit now (.ok body)).2 = hit) := by
  constructor
  · intro body
    have hc : classify body
        = if (listPre [Char.ofNat 123] (body.data.dropWhile isJsWs)
            || listPre ['['] (body.data.dropWhile isJsWs)) then Verdict.valid
          else Verdict.challengePage := rfl
    have hf : firstNonWs body = (body.data.dropWhile isJsWs).head? := rfl
    rw [hc, hf]
    cases hcond : (listPre [Char.ofNat 123] (body.data.dropWhile isJsWs)
        || listPre ['['] (body.data.dropWhile isJsWs)) with
    | true =>
      rw [if_pos rfl]
      rw [Bool.or_eq_true] at hcond
      rcases hcond with h | h
      · exact iff_of_true rfl (.inl ((listPre_singleton _ _).mp h))
      · exact iff_of_true rfl (.inr ((listPre_singleton _ _).mp h))
    | false =>
      rw [if_neg (by simp [hcond])]
      constructor
      · intro h; exact Verdict.noConfusion h
      · rintro (h | h) <;>
        · rw [(listPre_singleton _ _).mpr h] at hcond
          simp at hcond
  · intro hit now body hch
    have hpath : (udotFetchPath hit now (.ok body)).1.xCache ≠ some "MISS" ∧
        (udotFetchPath hit now (.ok body)).2 = hit := by
      simp only [udotFetchPath, hch]
      exact udotFail_not_miss hit now _ _
    cases hit with
    | none => exact hpath
    | some h =>
      simp only [udotCacheStep]
      by_cases hfr : now - h.atMs < UDOT_FRESH_TTL
      · rw [if_pos hfr]
        exact ⟨by simp, rfl⟩
      · rw [if_neg hfr]
        exact hpath

/-- Witness for `c3_classifier_contract`: an HTML challenge page is not
served as a MISS and leaves the cache untouched. -/
theorem c3_classifier_witness :
    (udotCacheStep none 0 (.ok "<html>challenge</html>")).1.xCache ≠ some "MISS" ∧
    (udotCacheStep none 0 (.ok "<html>challenge</html>")).2 = none :=
  c3_classifier_contract.2 none 0 "<html>challenge</html>" rfl

/-- C9 counterexample: the CLI redirect endpoint, holding a cached URL
whose age (30 s) has reached the 30 s TTL, answers a metadata-call
failure by 302-redirecting to the *stale cached URL* instead of
propagating the failure. -/
theorem c9_stale_url_counterexample :
    IMG_CACHE_TTL ≤ 30000 - 0 ∧
    (serveMdtImage (some ⟨"https://mdt.example/old.jpg", 0⟩) 30000
        (.error "MDT resolve timeout")).1
      = ⟨302, some "https://mdt.example/old.jpg", "max-age=10", []⟩ :=
  ⟨by decide, rfl⟩

/-- C9 (amended): `resolveMdtUrl` of the snapshot pipeline does
propagate a metadata-call failure when its cached URL is absent or past
the TTL, leaving the cache untouched; but the CLI's `serveMdtImage`
redirect endpoint, in the same situation, falls back to a 302 redirect
onto the stale cached URL whenever one exists. -/
theorem c9_resolver_amended :
    (∀ (cache : Option UrlEntry) (now : Nat) (e : String),
      (∀ entry, cache = some entry → MDT_URL_TTL ≤ now - entry.atMs) →
        resolveMdtUrl cache now (.error e) = (.error e, cache)) ∧
    (∀ (entry : UrlEntry) (now : Nat) (e : String),
      IMG_CACHE_TTL ≤ now - entry.atMs →
        (serveMdtImage (some entry) now (.error e)).1
          = ⟨302, some entry.url, "max-age=10", []⟩) := by
  constructor
  · intro cache now e hexp
    cases cache with
    | none => rfl
    | some c =>
      have h := hexp c rfl
      have hfr : ¬ (now - c.atMs < MDT_URL_TTL) := by omega
      simp [resolveMdtUrl, hfr, resolveMdtFetch]
  · intro entry now e hage
    have hfr : ¬ (now - entry.atMs < IMG_CACHE_TTL) := by omega
    simp [serveMdtImage, hfr, serveMdtFetch]

/-- Witness for `c9_resolver_amended` at concrete expired entries. -/
theorem c9_resolver_witness :
    resolveMdtUrl (some ⟨"https://mdt.example/a.jpg", 0⟩) 60000 (.error "timeout")
      = (.error "timeout", some ⟨"https://mdt.example/a.jpg", 0⟩) ∧
    (serveMdtImage (some ⟨"https://mdt.example/a.jpg", 0⟩) 30000 (.error "timeout")).1
      = ⟨302, some "https://mdt.example/a.jpg", "max-age=10", []⟩ :=
  ⟨c9_resolver_amended.1 (some ⟨"https://mdt.example/a.jpg", 0⟩) 60000 "timeout"
      (by rintro entry ⟨rfl⟩; decide),
   c9_resolver_amended.2 ⟨"https://mdt.example/a.jpg", 0⟩ 30000 "timeout" (by decide)⟩

/-! ### Lemmas about the fan-out merge -/

theorem nmLookup_nil (id : String) : nmLookup [] id = none := rfl

theorem nmLookup_cons (k : String) (r : NameRec) (m : NameMap) (id : String) :
    nmLookup ((k, r) :: m) id = if id = k then some r else nmLookup m id := by
  by_cases h : id = k
  · simp [nmLookup, List.lookup, h]
  · have hbeq : (id == k) = false := beq_eq_false_iff_ne.mpr h
    simp [nmLookup, List.lookup, hbeq, h]

theorem none_orElse_opt (z : Option α) : (none <|> z) = z := rfl

/-- Writing an item touches only its own id, and whether it writes
depends on the current map only through that id's binding. -/
theorem absorbItem_lookup (m : NameMap) (c : JVal) (id : String) :
    nmLookup (absorbItem m c) id
      = (nmLookup m id <|> nmLookup (absorbItem [] c) id) := by
  by_cases hid : id = itemIdOf c
  · subst hid
    cases hm : nmLookup m (itemIdOf c) with
    | some r =>
      have hw : itemWrite m c = false := by
        unfold itemWrite
        rw [hm]
        simp
      rw [absorbItem, hw]
      simp only [Bool.false_eq_true, if_false]
      rw [hm]
      rfl
    | none =>
      have hw : itemWrite m c = itemWrite [] c := by
        unfold itemWrite
        rw [hm, nmLookup_nil]
      rw [absorbItem, absorbItem, ← hw, none_orElse_opt]
      cases hwc : itemWrite m c with
      | true =>
        rw [if_pos rfl, if_pos rfl, nmLookup_cons, nmLookup_cons, if_pos rfl,
          if_pos rfl]
      | false =>
        rw [if_neg Bool.false_ne_true, if_neg Bool.false_ne_true, hm, nmLookup_nil]
  · rw [absorbItem, absorbItem]
    have h2 : nmLookup (if itemWrite [] c then
        [(itemIdOf c, (⟨itemLocOf c, itemRoadOf c⟩ : NameRec))] else []) id = none := by
      cases itemWrite [] c <;> simp [nmLookup_cons, hid, nmLookup_nil]
    rw [h2]
    cases itemWrite m c <;>
      simp [nmLookup_cons, hid, Option.orElse]

theorem absorbIconsItem_lookup (m : NameMap) (c : JVal) (id : String) :
    nmLookup (absorbIconsItem m c) id
      = (nmLookup m id <|> nmLookup (absorbIconsItem [] c) id) := by
  by_cases hid : id = iconIdOf c
  · subst hid
    cases hm : nmLookup m (iconIdOf c) with
    | some r =>
      have hw : iconWrite m c = false := by
        unfold iconWrite
        rw [hm]
        simp
      rw [absorbIconsItem, hw]
      simp only [Bool.false_eq_true, if_false]
      rw [hm]
      rfl
    | none =>
      have hw : iconWrite m c = iconWrite [] c := by
        unfold iconWrite
        rw [hm, nmLookup_nil]
      rw [absorbIconsItem, absorbIconsItem, ← hw, none_orElse_opt]
      cases hwc : iconWrite m c with
      | true =>
        rw [if_pos rfl, if_pos rfl, nmLookup_cons, nmLookup_cons, if_pos rfl,
          if_pos rfl]
      | false =>
        rw [if_neg Bool.false_ne_true, if_neg Bool.false_ne_true, hm, nmLookup_nil]
  · rw [absorbIconsItem, absorbIconsItem]
    have h2 : nmLookup (if iconWrite [] c then
        [(iconIdOf c, (⟨iconLocOf c, .jstr ""⟩ : NameRec))] else []) id = none := by
      cases iconWrite [] c <;> simp [nmLookup_cons, hid, nmLookup_nil]
    rw [h2]
    cases iconWrite m c <;>
      simp [nmLookup_cons, hid, Option.orElse]

/-- The fold of any absorbing step with the single-id property
decomposes: the accumulated map's binding wins, and the fold's own
effect is what it produces from an empty map. -/
theorem stepFold_lookup {α : Type} (step : NameMap → α → NameMap)
    (hstep : ∀ m c id, nmLookup (step m c) id
      = (nmLookup m id <|> nmLookup (step [] c) id))
    (items : List α) (m : NameMap) (id : String) :
    nmLookup (items.foldl step m) id
      = (nmLookup m id <|> nmLookup (items.foldl step []) id) := by
  induction items generalizing m with
  | nil =>
    simp only [List.foldl_nil]
    rw [nmLookup_nil, orElse_none_right]
  | cons c cs ih =>
    simp only [List.foldl_cons]
    rw [ih (step m c), hstep m c id, orElse_assoc, ← ih (step [] c)]

theorem absorbBranch_lookup (m : NameMap) (b : Branch) (id : String) :
    nmLookup (absorbBranch m b) id
      = (nmLookup m id <|> nmLookup (absorbBranch [] b) id) := by
  cases b with
  | plain j => exact stepFold_lookup absorbItem absorbItem_lookup (plainItems j) m id
  | icons j =>
    exact stepFold_lookup absorbIconsItem absorbIconsItem_lookup (iconsItems j) m id

theorem buildNameMap_cons (b : Branch) (bs : List Branch) (id : String) :
    nmLookup (buildNameMap (b :: bs)) id
      = (nmLookup (absorbBranch [] b) id <|> nmLookup (buildNameMap bs) id) := by
  unfold buildNameMap
  simp only [List.foldl_cons]
  exact stepFold_lookup absorbBranch absorbBranch_lookup bs (absorbBranch [] b) id

theorem absorbItem_effect_none (c : JVal) (id : String) (hid : id ≠ itemIdOf c) :
    nmLookup (absorbItem [] c) id = none := by
  rw [absorbItem]
  cases itemWrite [] c <;> simp [nmLookup_cons, hid, nmLookup_nil]

theorem absorbIconsItem_effect_none (c : JVal) (id : String) (hid : id ≠ iconIdOf c) :
    nmLookup (absorbIconsItem [] c) id = none := by
  rw [absorbIconsItem]
  cases iconWrite [] c <;> simp [nmLookup_cons, hid, nmLookup_nil]

theorem stepFoldEffect_none {α : Type} (step : NameMap → α → NameMap)
    (hstep : ∀ m c id, nmLookup (step m c) id
      = (nmLookup m id <|> nmLookup (step [] c) id))
    (items : List α) (id : String)
    (h : ∀ c ∈ items, nmLookup (step [] c) id = none) :
    nmLookup (items.foldl step []) id = none := by
  induction items with
  | nil => rfl
  | cons c cs ih =>
    simp only [List.foldl_cons]
    rw [stepFold_lookup step hstep cs (step [] c) id,
      h c (List.mem_cons_self c cs), none_orElse_opt]
    exact ih fun d hd => h d (List.mem_cons_of_mem c hd)

/-- A branch that cannot write `id` contributes nothing at `id`. -/
theorem branch_effect_none (b : Branch) (id : String) (hid : id ∉ branchIds b) :
    nmLookup (absorbBranch [] b) id = none := by
  cases b with
  | plain j =>
    refine stepFoldEffect_none absorbItem absorbItem_lookup (plainItems j) id ?_
    intro c hc
    refine absorbItem_effect_none c id fun he => hid ?_
    exact List.mem_map.mpr ⟨c, hc, he.symm⟩
  | icons j =>
    refine stepFoldEffect_none absorbIconsItem absorbIconsItem_lookup (iconsItems j) id ?_
    intro c hc
    refine absorbIconsItem_effect_none c id fun he => hid ?_
    exact List.mem_map.mpr ⟨c, hc, he.symm⟩

theorem branchDisjoint_symm {b1 b2 : Branch} (h : BranchDisjoint b1 b2) :
    BranchDisjoint b2 b1 :=
  fun id h2 h1 => h id h1 h2

/-- Lookup in the merged map is invariant under re-ordering of the
completed branches when the branches are pairwise id-disjoint. -/
theorem buildNameMap_perm_lookup {bs bs' : List Branch} (p : bs.Perm bs')
    (hpw : bs.Pairwise BranchDisjoint) :
    ∀ id, nmLookup (buildNameMap bs) id = nmLookup (buildNameMap bs') id := by
  induction p with
  | nil => intro _; rfl
  | cons b p ih =>
    intro id
    rw [buildNameMap_cons, buildNameMap_cons,
      ih (List.pairwise_cons.mp hpw).2 id]
  | swap b1 b2 l =>
    intro id
    have hd : BranchDisjoint b2 b1 :=
      (List.pairwise_cons.mp hpw).1 b1 (List.mem_cons_self b1 l)
    rw [buildNameMap_cons, buildNameMap_cons, buildNameMap_cons, buildNameMap_cons]
    by_cases hmem : id ∈ branchIds b2
    · rw [branch_effect_none b1 id (hd id hmem)]
      cases nmLookup (absorbBranch [] b2) id <;> rfl
    · rw [branch_effect_none b2 id hmem]
      cases nmLookup (absorbBranch [] b1) id <;> rfl
  | trans p1 p2 ih1 ih2 =>
    intro id
    rw [ih1 hpw id, ih2 ((p1.pairwise_iff branchDisjoint_symm).mp hpw) id]

/-- C7 counterexample: two sources disagree on the record for id 1; when
the lower-priority alternate's fetch completes first, its record — not
the first-priority source's — ends up in the merged map, so the merge is
not deterministic under a fixed priority order. -/
theorem c7_completion_order_counterexample :
    nmLookup (buildNameMap [srcAlternate, srcPriority]) "1"
      = some ⟨.jstr "I-15 North", .jstr ""⟩ ∧
    nmLookup (buildNameMap [srcPriority, srcAlternate]) "1"
      = some ⟨.jstr "I-15 NB @ 600 S", .jstr ""⟩ ∧
    (⟨.jstr "I-15 North", .jstr ""⟩ : NameRec) ≠ ⟨.jstr "I-15 NB @ 600 S", .jstr ""⟩ := by
  refine ⟨rfl, rfl, fun h => ?_⟩
  have h1 : JVal.jstr "I-15 North" = JVal.jstr "I-15 NB @ 600 S" :=
    congrArg NameRec.loc h
  exact absurd (JVal.jstr.inj h1) (by decide)

/-- C7 (amended): the fan-out merge is first-*completed*-wins, not
first-priority-wins: a record already in the merged map is never
overwritten by a later-absorbed branch (so for a conflicting id the
branch whose fetch completed first wins, whatever its priority), and for
pairwise id-disjoint branches the merged map is the same under any
re-ordering of the completed branches. -/
theorem c7_first_writer_amended :
    (∀ (m : NameMap) (b : Branch) (id : String) (rec : NameRec),
      nmLookup m id = some rec → nmLookup (absorbBranch m b) id = some rec) ∧
    (∀ (bs bs' : List Branch), bs.Perm bs' → bs.Pairwise BranchDisjoint →
      ∀ id, nmLookup (buildNameMap bs) id = nmLookup (buildNameMap bs') id) := by
  constructor
  · intro m b id rec h
    rw [absorbBranch_lookup, h]
    rfl
  · intro bs bs' p hpw id
    exact buildNameMap_perm_lookup p hpw id

/-- Witness for `c7_first_writer_amended`: disjoint-source reordering at
concrete branches, and first-writer persistence under a conflicting
later branch. -/
theorem c7_first_writer_witness :
    [srcPriority, srcOther].Pairwise BranchDisjoint ∧
    nmLookup (buildNameMap [srcPriority, srcOther]) "1"
      = nmLookup (buildNameMap [srcOther, srcPriority]) "1" ∧
    nmLookup (absorbBranch (buildNameMap [srcPriority]) srcAlternate) "1"
      = some ⟨.jstr "I-15 NB @ 600 S", .jstr ""⟩ :=
  ⟨by decide,
   c7_first_writer_amended.2 [srcPriority, srcOther] [srcOther, srcPriority]
      (List.Perm.swap srcOther srcPriority []) (by decide) "1",
   c7_first_writer_amended.1 (buildNameMap [srcPriority]) srcAlternate "1"
      ⟨.jstr "I-15 NB @ 600 S", .jstr ""⟩ rfl⟩

theorem ne_empty_of_isEmpty_false {s : String} (h : s.isEmpty = false) : s ≠ "" := by
  intro hh
  rw [hh] at h
  exact absurd h (by decide)

/-- `absorbItem` preserves the invariant that every stored record has a
non-empty id and a truthy location. -/
theorem absorbItem_inv (m : NameMap) (c : JVal)
    (hm : ∀ id rec, nmLookup m id = some rec → id ≠ "" ∧ jTruthy rec.loc = true) :
    ∀ id rec, nmLookup (absorbItem m c) id = some rec →
      id ≠ "" ∧ jTruthy rec.loc = true := by
  intro id rec h
  rw [absorbItem] at h
  cases hw : itemWrite m c with
  | false =>
    rw [hw, if_neg Bool.false_ne_true] at h
    exact hm id rec h
  | true =>
    rw [hw, if_pos rfl, nmLookup_cons] at h
    have hcomp := hw
    simp only [itemWrite, Bool.and_eq_true, Bool.not_eq_true'] at hcomp
    by_cases hid : id = itemIdOf c
    · rw [if_pos hid] at h
      obtain rfl : (⟨itemLocOf c, itemRoadOf c⟩ : NameRec) = rec := Option.some.inj h
      exact ⟨hid ▸ ne_empty_of_isEmpty_false hcomp.1.1, hcomp.1.2⟩
    · rw [if_neg hid] at h
      exact hm id rec h

/-- `absorbIconsItem` preserves the same invariant. -/
theorem absorbIconsItem_inv (m : NameMap) (c : JVal)
    (hm : ∀ id rec, nmLookup m id = some rec → id ≠ "" ∧ jTruthy rec.loc = true) :
    ∀ id rec, nmLookup (absorbIconsItem m c) id = some rec →
      id ≠ "" ∧ jTruthy rec.loc = true := by
  intro id rec h
  rw [absorbIconsItem] at h
  cases hw : iconWrite m c with
  | false =>
    rw [hw, if_neg Bool.false_ne_true] at h
    exact hm id rec h
  | true =>
    rw [hw, if_pos rfl, nmLookup_cons] at h
    have hcomp := hw
    simp only [iconWrite, Bool.and_eq_true, Bool.not_eq_true'] at hcomp
    by_cases hid : id = iconIdOf c
    · rw [if_pos hid] at h
      obtain rfl : (⟨iconLocOf c, .jstr ""⟩ : NameRec) = rec := Option.some.inj h
      exact ⟨hid ▸ ne_empty_of_isEmpty_false hcomp.1.1, hcomp.1.2⟩
    · rw [if_neg hid] at h
      exact hm id rec h

/-- A fold of an invariant-preserving step preserves the invariant. -/
theorem stepFold_inv {α : Type} (P : NameMap → Prop) (step : NameMap → α → NameMap)
    (hpres : ∀ m c, P m → P (step m c)) (items : List α) (m : NameMap) (hm : P m) :
    P (items.foldl step m) := by
  induction items generalizing m with
  | nil => exact hm
  | cons c cs ih =>
    simp only [List.foldl_cons]
    exact ih (step m c) (hpres m c hm)

theorem absorbBranch_inv (m : NameMap) (b : Branch)
    (hm : ∀ id rec, nmLookup m id = some rec → id ≠ "" ∧ jTruthy rec.loc = true) :
    ∀ id rec, nmLookup (absorbBranch m b) id = some rec →
      id ≠ "" ∧ jTruthy rec.loc = true := by
  cases b with
  | plain j =>
    exact stepFold_inv
      (fun m => ∀ id rec, nmLookup m id = some rec → id ≠ "" ∧ jTruthy rec.loc = true)
      absorbItem absorbItem_inv (plainItems j) m hm
  | icons j =>
    exact stepFold_inv
      (fun m => ∀ id rec, nmLookup m id = some rec → id ≠ "" ∧ jTruthy rec.loc = true)
      absorbIconsItem absorbIconsItem_inv (iconsItems j) m hm

/-- C10: every record the fan-out aggregator writes into the merged name
map is stored under a non-empty id and carries a truthy (in particular
non-empty-string) location — a candidate lacking either is skipped — so
no entry of the aggregated response has an empty location. -/
theorem c10_nonempty_fields (completed : List Branch) (id : String) (rec : NameRec)
    (h : nmLookup (buildNameMap completed) id = some rec) :
    id ≠ "" ∧ jTruthy rec.loc = true := by
  refine stepFold_inv
    (fun m => ∀ id rec, nmLookup m id = some rec → id ≠ "" ∧ jTruthy rec.loc = true)
    absorbBranch absorbBranch_inv completed [] ?_ id rec h
  intro id rec hx
  exact Option.noConfusion hx

/-- Witness for `c10_nonempty_fields` on a concrete merged map. -/
theorem c10_nonempty_fields_witness :
    nmLookup (buildNameMap [srcPriority]) "1"
      = some ⟨.jstr "I-15 NB @ 600 S", .jstr ""⟩ ∧
    ("1" ≠ "" ∧
      jTruthy (NameRec.loc ⟨.jstr "I-15 NB @ 600 S", .jstr ""⟩) = true) :=
  ⟨rfl, c10_nonempty_fields [srcPriority] "1" ⟨.jstr "I-15 NB @ 600 S", .jstr ""⟩ rfl⟩

end MTS
